import Mathlib

/-!
Verification of the job-lifecycle engine of the Cloud-Distributed-Transcode-Pipeline
repository.

The development shallowly embeds:
* the `jobs` / `renditions` data model (schema.sql);
* the sqlc store operations used by the worker
  (`StartJobProcessing`, `UpdateJobStatus`, `IncrementRetryCount`,
  `ResetStalledJob`, `UpdateRenditionOutputKey`);
* the worker runtime (`processJob`, `markJobFailed`, `handleJobFailure`,
  the main loop body), apps/worker/cmd/worker/main.go;
* the job-creation HTTP handler (`CreateJob` in apps/api/internal/handler/jobs.go).

Timestamps are modelled as natural numbers counting seconds; durations
(the 10-minute INTERVAL, the backoff table) are in seconds.  External
effects (scratch directory, object store, encoder, per-statement database
outcomes that the Go code inspects) are an explicit oracle `Env`; database
reads and the writes whose errors the Go code merely logs are modelled as
succeeding unless the Go code branches on the outcome.
-/

deriving instance DecidableEq for Except

namespace Transcode

/-- The `job_status` enum from schema.sql. -/
inductive JobStatus where
  | queued
  | processing
  | completed
  | failed
deriving DecidableEq, Repr

/-- A row of the `jobs` table (schema.sql).  `created_at` / `updated_at` are
trigger-maintained audit columns that no claim mentions and are omitted. -/
structure Job where
  id : String
  input_key : String
  status : JobStatus
  error_message : Option String
  retry_count : Nat
  max_retries : Nat
  started_at : Option Nat
  worker_id : Option String
deriving DecidableEq, Repr

/-- A row of the `renditions` table (schema.sql), minus audit columns. -/
structure Rendition where
  id : String
  job_id : String
  resolution : String
  output_key : Option String
deriving DecidableEq, Repr

/-- A freshly inserted rendition row: NULL `output_key`, parent id, requested
resolution. -/
def mkRendition (jobID resolution : String) : Rendition :=
  { id := jobID ++ "/" ++ resolution
    job_id := jobID
    resolution := resolution
    output_key := none }

/-- The 10-minute INTERVAL from the `StartJobProcessing` query, in seconds. -/
def stallHorizonSeconds : Nat := 600

/-- The WHERE clause of `StartJobProcessing` (queries.sql):
status queued, OR status processing AND `started_at` before NOW minus the horizon.
A NULL `started_at` makes the comparison NULL, hence not matched. -/
def claimEligible (now : Nat) (j : Job) : Bool :=
  decide (j.status = JobStatus.queued) ||
    (decide (j.status = JobStatus.processing) &&
      (match j.started_at with
       | some t => decide (t + stallHorizonSeconds < now)
       | none => false))

/-- Models `StartJobProcessing` (queries.sql): conditional single-statement UPDATE.
`none` models "no rows" (sqlc `:one` returns ErrNoRows), i.e. the job was
already claimed; `some` returns the updated row. -/
def StartJobProcessing (now : Nat) (workerID : String) (j : Job) : Option Job :=
  if claimEligible now j then
    some { j with
      status := JobStatus.processing
      worker_id := some workerID
      started_at := some now
      error_message := none }
  else
    none

/-- Models `UpdateJobStatus` (queries.sql): `SET status = $2, error_message = $3 WHERE id = $1`,
unconditional. -/
def UpdateJobStatus (st : JobStatus) (errMsg : Option String) (j : Job) : Job :=
  { j with status := st, error_message := errMsg }

/-- Models `IncrementRetryCount` (queries.sql):
SET status queued, retry_count incremented, worker_id and started_at NULL,
unconditional. -/
def IncrementRetryCount (j : Job) : Job :=
  { j with
    status := JobStatus.queued
    retry_count := j.retry_count + 1
    worker_id := none
    started_at := none }

/-- Models `ResetStalledJob` (queries.sql): resets a job back to queued only when the
row still has status processing; `none` models the no-rows outcome. -/
def ResetStalledJob (j : Job) : Option Job :=
  if j.status = JobStatus.processing then
    some { j with
      status := JobStatus.queued
      worker_id := none
      started_at := none }
  else
    none

/-! ### Path helpers (Go standard library, as used by the worker)

`filepath.Base`, `filepath.Ext` and `strings.TrimSuffix` on Unix paths,
modelled character-for-character from the Go sources. -/

/-- Go `path/filepath.Base` on Unix: empty path gives ".", trailing slashes
are dropped, the last component is returned, an all-slash path gives "/". -/
def filepathBase (path : String) : String :=
  if path = "" then "." else
    let rcs := path.data.reverse.dropWhile (fun c => c = '/')
    if rcs = [] then "/" else
      ((rcs.takeWhile (fun c => c ≠ '/')).reverse).asString

/-- Scans the reversed path, accumulating characters until the final dot of
the last path element; stops without a result at a slash. -/
def extScan : List Char → List Char → Option (List Char)
  | [], _ => none
  | c :: rest, acc =>
    if c = '/' then none
    else if c = '.' then some (c :: acc)
    else extScan rest (c :: acc)

/-- Go `path/filepath.Ext`: the suffix beginning at the final dot in the final
element of the path; empty if there is no dot. -/
def filepathExt (path : String) : String :=
  match extScan path.data.reverse [] with
  | some l => l.asString
  | none => ""

/-- Go `strings.TrimSuffix`. -/
def stringsTrimSuffix (s suffix : String) : String :=
  if suffix.data.isSuffixOf s.data then
    (s.data.take (s.data.length - suffix.data.length)).asString
  else
    s

/-- The deterministic output locator computed in `processJob`:
`inputBase := filepath.Base(job.InputKey)`,
`inputName := strings.TrimSuffix(inputBase, filepath.Ext(inputBase))`,
`outputKey := fmt.Sprintf("outputs/%s/%s_%s.mp4", jobIDStr, inputName, r.Resolution)`. -/
def fmtOutputKey (jobIDStr inputKey resolution : String) : String :=
  let inputBase := filepathBase inputKey
  let inputName := stringsTrimSuffix inputBase (filepathExt inputBase)
  "outputs/" ++ jobIDStr ++ "/" ++ inputName ++ "_" ++ resolution ++ ".mp4"

/-! ### Worker runtime (apps/worker main.go, current revision) -/

/-- Oracle for the external effects and fallible statements that `processJob`
branches on: scratch-directory creation, the object-store download, the
rendition listing, per-resolution transcode/upload/DB-update outcomes, the
write inside `markJobFailed` (whose error is only logged) and the final
status update. -/
structure Env where
  tempDirOk : Bool
  downloadOk : Bool
  listOk : Bool
  transcodeOk : String → Bool
  uploadOk : String → Bool
  updateKeyOk : String → Bool
  markFailedWriteOk : Bool
  finalUpdateOk : Bool

/-- The state a single worker-loop iteration touches: the job row, its
rendition rows, the Redis dead-letter list (`jobs:dead`), the re-enqueues
scheduled by the retry handler (job id, delay in seconds), and whether the
worker currently holds the Redis lock for the job. -/
structure WorkerState where
  job : Job
  renditions : List Rendition
  dlq : List String
  scheduled : List (String × Nat)
  lockHeld : Bool
deriving DecidableEq, Repr

/-- Models `markJobFailed` (main.go): writes `status = failed` with the error text
via `UpdateJobStatus` (a failure of that write is only logged) and returns
the original error to the caller. -/
def markJobFailed (writeOk : Bool) (msg : String) (s : WorkerState) :
    Except String Unit × WorkerState :=
  let s' := if writeOk then { s with job := UpdateJobStatus JobStatus.failed (some msg) s.job } else s
  (Except.error msg, s')

/-- One rendition iteration of the loop in `processJob`: transcode, upload,
and DB update of `output_key`; a failure at any step is logged and the loop
continues with the row unchanged. -/
def processOneRendition (env : Env) (jobIDStr inputKey : String) (r : Rendition) : Rendition :=
  if env.transcodeOk r.resolution then
    if env.uploadOk r.resolution then
      if env.updateKeyOk r.resolution then
        { r with output_key := some (fmtOutputKey jobIDStr inputKey r.resolution) }
      else r
    else r
  else r

/-- Models `processJob` (main.go, current revision): claim via `StartJobProcessing`
(error on no rows), scratch dir, download, rendition listing — each failure
goes through `markJobFailed` — then the rendition loop, then an unconditional
`UpdateJobStatus(completed)`. -/
def processJob (env : Env) (now : Nat) (workerID : String) (s : WorkerState) :
    Except String Unit × WorkerState :=
  match StartJobProcessing now workerID s.job with
  | none => (Except.error "failed to claim job for processing", s)
  | some j =>
    let s := { s with job := j }
    if ¬ env.tempDirOk then
      markJobFailed env.markFailedWriteOk "failed to create temp dir" s
    else if ¬ env.downloadOk then
      markJobFailed env.markFailedWriteOk "failed to download input" s
    else if ¬ env.listOk then
      markJobFailed env.markFailedWriteOk "failed to get renditions" s
    else
      let s := { s with
        renditions := s.renditions.map (processOneRendition env s.job.id s.job.input_key) }
      if env.finalUpdateOk then
        (Except.ok (), { s with job := UpdateJobStatus JobStatus.completed none s.job })
      else
        (Except.error "failed to mark job as completed", s)

/-- The backoff table `retryDelays` (main.go), in seconds. -/
def retryDelays : List Nat := [10, 30, 60]

/-- Models `handleJobFailure` (main.go): reads the job row; if
`RetryCount >= MaxRetries` it pushes the id to the dead-letter list and marks
the job failed with "exceeded max retries: ..."; otherwise it increments the
retry count and schedules a deferred re-enqueue with the delay at index
`RetryCount` (pre-increment), clamped to the last table entry. -/
def handleJobFailure (errMsg : String) (s : WorkerState) : WorkerState :=
  let job := s.job
  if job.max_retries ≤ job.retry_count then
    { s with
      dlq := job.id :: s.dlq
      job := UpdateJobStatus JobStatus.failed
        (some ("exceeded max retries: " ++ errMsg)) job }
  else
    let delayIndex := if retryDelays.length ≤ job.retry_count then
      retryDelays.length - 1 else job.retry_count
    { s with
      job := IncrementRetryCount job
      scheduled := s.scheduled ++ [(job.id, retryDelays.getD delayIndex 0)] }

/-- The body of the main worker loop (main.go) for one popped token whose
lock was acquired: run `processJob`; on error invoke `handleJobFailure`;
finally release the lock. -/
def mainLoopIter (env : Env) (now : Nat) (workerID : String) (s : WorkerState) : WorkerState :=
  let s0 := { s with lockHeld := true }
  let res := processJob env now workerID s0
  let s2 := match res.1 with
    | Except.ok _ => res.2
    | Except.error e => handleJobFailure e res.2
  { s2 with lockHeld := false }

/-- A freshly created job row: `CreateJob` (queries.sql) inserts with
status queued and the schema defaults `retry_count = 0`,
`max_retries = 3`, NULL `error_message` / `started_at` / `worker_id`. -/
def initialJob (id inputKey : String) : Job :=
  { id := id
    input_key := inputKey
    status := JobStatus.queued
    error_message := none
    retry_count := 0
    max_retries := 3
    started_at := none
    worker_id := none }

/-- The state right after submission: the fresh job row, one rendition row per
resolution with NULL `output_key`, empty dead-letter list, nothing scheduled. -/
def initialState (id inputKey : String) (resolutions : List String) : WorkerState :=
  { job := initialJob id inputKey
    renditions := resolutions.map (fun r => mkRendition id r)
    dlq := []
    scheduled := []
    lockHeld := false }

/-- The states a job row, its renditions and the queues can reach through the
worker runtime: the initial submitted state, closed under worker-loop
iterations with arbitrary oracle, clock and worker id. -/
inductive Reachable : WorkerState → Prop
  | init (id inputKey : String) (resolutions : List String) :
      Reachable (initialState id inputKey resolutions)
  | loop (s : WorkerState) (env : Env) (now : Nat) (workerID : String) :
      Reachable s → Reachable (mainLoopIter env now workerID s)

/-! ### Job creation (apps/api/internal/handler/jobs.go) -/

/-- Oracle for the two database/queue statements whose outcome the handler
branches on: the `CreateJob` insert (500 on error) and the Redis push (logged,
response still 201). -/
structure ApiEnv where
  createJobOk : Bool
  pushOk : Bool

/-- The state the handler touches: the two tables and the pending queue. -/
structure ApiState where
  jobs : List Job
  renditions : List Rendition
  queue : List String
deriving DecidableEq, Repr

/-- Models `CreateRendition` (queries.sql): INSERT that fails (`none`) exactly when
the `UNIQUE(job_id, resolution)` constraint is violated. -/
def CreateRendition (jobID resolution : String) (rens : List Rendition) :
    Option (List Rendition) :=
  if rens.any (fun x => x.job_id == jobID && x.resolution == resolution) then none
  else some (rens ++ [mkRendition jobID resolution])

/-- The rendition-creation loop of the handler: each insert error is logged
and the loop continues ("Continue anyway - job is created"). -/
def insertRenditions (jobID : String) (resolutions : List String)
    (rens : List Rendition) : List Rendition :=
  match resolutions with
  | [] => rens
  | r :: rest =>
    match CreateRendition jobID r rens with
    | none => insertRenditions jobID rest rens
    | some rens' => insertRenditions jobID rest rens'

/-- The handler fallback when the request carries no resolutions. -/
def defaultResolutions : List String := ["480p", "720p", "1080p"]

/-- Models the `CreateJob` handler (jobs.go): reject empty `input_key` with 400; insert
the job row (500 on DB error); insert one rendition per requested resolution,
ignoring per-row errors; push the id to the queue (failure logged); 201. -/
def CreateJobHandler (env : ApiEnv) (inputKey : String) (resolutions : List String)
    (newID : String) (s : ApiState) : Nat × ApiState :=
  if inputKey = "" then (400, s)
  else if ¬ env.createJobOk then (500, s)
  else
    let s1 : ApiState := { s with jobs := s.jobs ++ [initialJob newID inputKey] }
    let rs := if resolutions.isEmpty then defaultResolutions else resolutions
    let s2 : ApiState := { s1 with renditions := insertRenditions newID rs s1.renditions }
    let s3 : ApiState := if env.pushOk then { s2 with queue := newID :: s2.queue } else s2
    (201, s3)

/-- The resolutions already present for a given job, in row order. -/
def resolutionsOf (jobID : String) (rens : List Rendition) : List String :=
  (rens.filter (fun x => x.job_id == jobID)).map (fun x => x.resolution)

/-- First-occurrence de-duplication against an initial `seen` list; describes
which requested resolutions survive the insert loop of the handler. -/
def dedupKeepFirst : List String → List String → List String
  | [], _ => []
  | r :: rest, seen =>
    if r ∈ seen then dedupKeepFirst rest seen
    else r :: dedupKeepFirst rest (r :: seen)

/-! ### Claim-side definitions and concrete instances used in the theorems -/

/-- The delay the spec describes: entry at index `retryCount` of the backoff
table, reusing the last entry when the index is beyond the table. -/
def backoffDelay (retryCount : Nat) : Nat :=
  if retryCount < retryDelays.length then retryDelays.getD retryCount 0
  else retryDelays.getLast (by simp [retryDelays])

/-- An oracle on which every external effect succeeds. -/
def envAllOk : Env :=
  { tempDirOk := true
    downloadOk := true
    listOk := true
    transcodeOk := fun _ => true
    uploadOk := fun _ => true
    updateKeyOk := fun _ => true
    markFailedWriteOk := true
    finalUpdateOk := true }

/-- An oracle on which the encoder fails for every resolution and everything
else succeeds. -/
def envNoTranscode : Env := { envAllOk with transcodeOk := fun _ => false }

/-- An oracle on which the object-store download fails and everything else
succeeds. -/
def envNoDownload : Env := { envAllOk with downloadOk := false }

/-- A freshly submitted three-rendition job, as in scenario S1 of the spec. -/
def sEx : WorkerState :=
  initialState "j1" "uploads/a/v.mp4" ["480p", "720p", "1080p"]

/-- The same job while freshly claimed by another worker: status processing
with a `started_at` inside the stall horizon. -/
def sProc : WorkerState :=
  { sEx with job := { sEx.job with
      status := JobStatus.processing
      started_at := some 0
      worker_id := some "w0" } }

/-- The same job after reaching the terminal status completed. -/
def sCompl : WorkerState :=
  { sEx with job := { sEx.job with status := JobStatus.completed } }

/-- An empty API state: no jobs, no renditions, empty pending queue. -/
def api0 : ApiState := { jobs := [], renditions := [], queue := [] }

/-- An API oracle on which the insert and the queue push succeed. -/
def apiEnvOk : ApiEnv := { createJobOk := true, pushOk := true }

/-! ## Helper lemmas -/

/-- The Boolean claim predicate agrees with its propositional reading. -/
theorem claimEligible_iff (now : Nat) (j : Job) :
    claimEligible now j = true ↔
      (j.status = JobStatus.queued ∨
        (j.status = JobStatus.processing ∧
          ∃ t, j.started_at = some t ∧ t + stallHorizonSeconds < now)) := by
  unfold claimEligible
  cases h : j.started_at <;>
    simp [h, Bool.or_eq_true, Bool.and_eq_true, decide_eq_true_eq]

/-- A successful claim rewrites exactly the four claimed columns and keeps
the rest of the row. -/
theorem StartJobProcessing_some (now : Nat) (workerID : String) (j j' : Job)
    (h : StartJobProcessing now workerID j = some j') :
    j' = { j with
      status := JobStatus.processing
      worker_id := some workerID
      started_at := some now
      error_message := none } := by
  unfold StartJobProcessing at h
  by_cases hc : claimEligible now j <;> simp [hc] at h
  exact h.symm

/-- The claim stays in the WHERE-matched case exactly when the predicate holds. -/
theorem StartJobProcessing_isSome (now : Nat) (workerID : String) (j : Job) :
    (StartJobProcessing now workerID j).isSome = claimEligible now j := by
  unfold StartJobProcessing
  by_cases hc : claimEligible now j <;> simp [hc]

/-! ## Claim C1 -/

/-- C1: the claim operation `StartJobProcessing` is a single conditional
update that succeeds iff the row is queued, or processing with `started_at`
older than the 10-minute stall horizon; on success it sets status processing,
the caller worker id, `started_at` to the current time, and clears
`error_message`; otherwise it matches no row (AlreadyClaimed) and changes
nothing. -/
theorem claim_is_single_conditional_update (now : Nat) (workerID : String) (j : Job) :
    ((StartJobProcessing now workerID j).isSome ↔
      (j.status = JobStatus.queued ∨
        (j.status = JobStatus.processing ∧
          ∃ t, j.started_at = some t ∧ t + stallHorizonSeconds < now))) ∧
    (∀ j', StartJobProcessing now workerID j = some j' →
      j'.status = JobStatus.processing ∧
      j'.worker_id = some workerID ∧
      j'.started_at = some now ∧
      j'.error_message = none ∧
      j'.id = j.id ∧
      j'.input_key = j.input_key ∧
      j'.retry_count = j.retry_count ∧
      j'.max_retries = j.max_retries) ∧
    (StartJobProcessing now workerID j = none →
      ¬ (j.status = JobStatus.queued ∨
        (j.status = JobStatus.processing ∧
          ∃ t, j.started_at = some t ∧ t + stallHorizonSeconds < now))) := by
  refine ⟨?_, ?_, ?_⟩
  · rw [StartJobProcessing_isSome, claimEligible_iff]
  · intro j' hj'
    rw [StartJobProcessing_some now workerID j j' hj']
    simp
  · intro hnone
    rw [← claimEligible_iff]
    unfold StartJobProcessing at hnone
    by_cases hc : claimEligible now j <;> simp [hc] at hnone ⊢

/-- Witness for C1 at a concrete queued job and a concrete stale processing
job. -/
theorem claim_is_single_conditional_update_witness :
    ((StartJobProcessing 50 "w1" (initialJob "j1" "uploads/a/v.mp4")).isSome = true) ∧
    ({ initialJob "j1" "uploads/a/v.mp4" with
        status := JobStatus.processing
        worker_id := some "w1"
        started_at := some 50
        error_message := none } : Job).status = JobStatus.processing := by
  refine ⟨?_, ?_⟩
  · have h := (claim_is_single_conditional_update 50 "w1"
      (initialJob "j1" "uploads/a/v.mp4")).1
    exact h.mpr (Or.inl (by decide))
  · have h := (claim_is_single_conditional_update 50 "w1"
      (initialJob "j1" "uploads/a/v.mp4")).2.1
      { initialJob "j1" "uploads/a/v.mp4" with
        status := JobStatus.processing
        worker_id := some "w1"
        started_at := some 50
        error_message := none } (by decide)
    exact h.1

/-! ## Claim C4 -/

/-- Branch characterization of the retry handler: dead-letter plus terminal
failure at the cap, increment plus deferred re-enqueue below it. -/
theorem handleJobFailure_branches (errMsg : String) (s : WorkerState) :
    (s.job.max_retries ≤ s.job.retry_count →
      handleJobFailure errMsg s =
        { s with
          dlq := s.job.id :: s.dlq
          job := { s.job with
            status := JobStatus.failed
            error_message := some ("exceeded max retries: " ++ errMsg) } }) ∧
    (s.job.retry_count < s.job.max_retries →
      handleJobFailure errMsg s =
        { s with
          job := { s.job with
            status := JobStatus.queued
            retry_count := s.job.retry_count + 1
            worker_id := none
            started_at := none }
          scheduled := s.scheduled ++ [(s.job.id, backoffDelay s.job.retry_count)] }) ∧
    retryDelays = [10, 30, 60] := by
  refine ⟨?_, ?_, rfl⟩
  · intro h
    unfold handleJobFailure
    rw [if_pos h]
    rfl
  · intro h
    unfold handleJobFailure
    rw [if_neg (by omega)]
    unfold backoffDelay IncrementRetryCount
    by_cases hc : s.job.retry_count < retryDelays.length
    · rw [if_neg (by omega), if_pos hc]
    · rw [if_pos (by omega), if_neg hc]
      have hlast : retryDelays.getD (retryDelays.length - 1) 0 =
          retryDelays.getLast (by simp [retryDelays]) := by
        simp [retryDelays]
      simp only [hlast]

/-- C4: on plan failure, when `retry_count` has reached `max_retries` the
handler pushes the id to the dead-letter queue and marks the job failed with
a message beginning "exceeded max retries: "; otherwise it increments
`retry_count` (resetting status queued and clearing `worker_id` /
`started_at`) and schedules a re-enqueue after the backoff delay at index
`retry_count` (pre-increment) of the table, in seconds 10, 30, 60, reusing
the last entry beyond the table. -/
theorem retry_policy_behavior (errMsg : String) (s : WorkerState) :
    (s.job.max_retries ≤ s.job.retry_count →
      handleJobFailure errMsg s =
        { s with
          dlq := s.job.id :: s.dlq
          job := { s.job with
            status := JobStatus.failed
            error_message := some ("exceeded max retries: " ++ errMsg) } }) ∧
    (s.job.retry_count < s.job.max_retries →
      handleJobFailure errMsg s =
        { s with
          job := { s.job with
            status := JobStatus.queued
            retry_count := s.job.retry_count + 1
            worker_id := none
            started_at := none }
          scheduled := s.scheduled ++ [(s.job.id, backoffDelay s.job.retry_count)] }) ∧
    retryDelays = [10, 30, 60] :=
  handleJobFailure_branches errMsg s

/-- Witness for C4: a job at the retry cap is dead-lettered and marked
failed; a job below the cap is re-queued with the first backoff delay. -/
theorem retry_policy_behavior_witness :
    handleJobFailure "boom" (initialState "j1" "k" []) =
      { initialState "j1" "k" [] with
        job := { (initialState "j1" "k" []).job with
          status := JobStatus.queued
          retry_count := 1
          worker_id := none
          started_at := none }
        scheduled := [("j1", backoffDelay 0)] } ∧
    handleJobFailure "boom"
        { initialState "j1" "k" [] with
          job := { (initialState "j1" "k" []).job with retry_count := 3 } } =
      { initialState "j1" "k" [] with
        dlq := ["j1"]
        job := { (initialState "j1" "k" []).job with
          retry_count := 3
          status := JobStatus.failed
          error_message := some ("exceeded max retries: " ++ "boom") } } := by
  refine ⟨?_, ?_⟩
  · have h := (retry_policy_behavior "boom" (initialState "j1" "k" [])).2.1 (by decide)
    exact h.trans (by decide)
  · have h := (retry_policy_behavior "boom"
      { initialState "j1" "k" [] with
        job := { (initialState "j1" "k" []).job with retry_count := 3 } }).1 (by decide)
    exact h.trans (by decide)

/-! ## Plan-level helper lemmas -/

/-- A failed claim makes `processJob` return the claim error with the state
untouched. -/
theorem processJob_claim_failed (env : Env) (now : Nat) (workerID : String)
    (s : WorkerState) (h : StartJobProcessing now workerID s.job = none) :
    processJob env now workerID s =
      (Except.error "failed to claim job for processing", s) := by
  unfold processJob
  rw [h]

/-- The plan never touches `retry_count`, `max_retries`, the job identity,
the dead-letter list, the schedule or the lock flag. -/
theorem processJob_preserves (env : Env) (now : Nat) (workerID : String)
    (s : WorkerState) :
    (processJob env now workerID s).2.job.id = s.job.id ∧
    (processJob env now workerID s).2.job.input_key = s.job.input_key ∧
    (processJob env now workerID s).2.job.retry_count = s.job.retry_count ∧
    (processJob env now workerID s).2.job.max_retries = s.job.max_retries ∧
    (processJob env now workerID s).2.dlq = s.dlq ∧
    (processJob env now workerID s).2.scheduled = s.scheduled ∧
    (processJob env now workerID s).2.lockHeld = s.lockHeld := by
  unfold processJob
  cases h : StartJobProcessing now workerID s.job with
  | none => simp
  | some j =>
    have hj := StartJobProcessing_some now workerID s.job j h
    simp only [markJobFailed, UpdateJobStatus]
    repeat' split
    all_goals simp [hj]

/-- The plan leaves the rendition rows alone or maps the per-rendition loop
body over them, keyed by the job id and input key of the claimed row. -/
theorem processJob_renditions (env : Env) (now : Nat) (workerID : String)
    (s : WorkerState) :
    (processJob env now workerID s).2.renditions = s.renditions ∨
    (processJob env now workerID s).2.renditions =
      s.renditions.map (processOneRendition env s.job.id s.job.input_key) := by
  unfold processJob
  cases h : StartJobProcessing now workerID s.job with
  | none => exact Or.inl rfl
  | some j =>
    have hj := StartJobProcessing_some now workerID s.job j h
    simp only [markJobFailed, UpdateJobStatus]
    repeat' split
    all_goals simp [hj]

/-! ## Claim C9 -/

/-- C9: the output locator is exactly
"outputs/" ++ job id ++ "/" ++ basename of the input key with its extension
stripped ++ "_" ++ resolution ++ ".mp4", and it is a function of the job id,
input key and resolution alone: whatever the oracle outcomes, a rendition
row after the plan either kept its previous `output_key` or received exactly
this locator, so two runs of the plan over the same job compute identical
locators for every rendition. -/
theorem output_locator_deterministic (env : Env) (now : Nat) (workerID : String)
    (s : WorkerState) (jobIDStr inputKey : String) (r : Rendition) :
    (processOneRendition env jobIDStr inputKey r = r ∨
     processOneRendition env jobIDStr inputKey r =
       { r with output_key := some (fmtOutputKey jobIDStr inputKey r.resolution) }) ∧
    fmtOutputKey jobIDStr inputKey r.resolution =
      "outputs/" ++ jobIDStr ++ "/" ++
        stringsTrimSuffix (filepathBase inputKey) (filepathExt (filepathBase inputKey)) ++
        "_" ++ r.resolution ++ ".mp4" ∧
    ((processJob env now workerID s).2.renditions = s.renditions ∨
     (processJob env now workerID s).2.renditions =
       s.renditions.map (processOneRendition env s.job.id s.job.input_key)) ∧
    fmtOutputKey "j1" "uploads/a/v.mp4" "480p" = "outputs/j1/v_480p.mp4" := by
  refine ⟨?_, rfl, processJob_renditions env now workerID s, by decide⟩
  unfold processOneRendition
  repeat' split
  all_goals simp

/-! ## Worker-loop helper lemmas -/

/-- When the claim matches no row, one loop iteration is exactly the retry
handler applied to the untouched state, with the lock released. -/
theorem mainLoopIter_claim_failed (env : Env) (now : Nat) (workerID : String)
    (s : WorkerState) (h : StartJobProcessing now workerID s.job = none) :
    mainLoopIter env now workerID s =
      { handleJobFailure "failed to claim job for processing"
          { s with lockHeld := true } with lockHeld := false } := by
  unfold mainLoopIter
  simp only [processJob_claim_failed env now workerID { s with lockHeld := true } h]

/-- One loop iteration either keeps the plan result (plan succeeded) or runs
the retry handler on it (plan failed); the lock is released either way. -/
theorem mainLoopIter_cases (env : Env) (now : Nat) (workerID : String)
    (s : WorkerState) :
    (mainLoopIter env now workerID s =
      { (processJob env now workerID { s with lockHeld := true }).2 with
        lockHeld := false }) ∨
    (∃ e, (processJob env now workerID { s with lockHeld := true }).1 = Except.error e ∧
      mainLoopIter env now workerID s =
        { handleJobFailure e (processJob env now workerID { s with lockHeld := true }).2 with
          lockHeld := false }) := by
  unfold mainLoopIter
  cases h : (processJob env now workerID { s with lockHeld := true }).1 with
  | ok u => left; simp only [h]
  | error e => right; exact ⟨e, rfl, by simp only [h]⟩

/-! ## Claim C2 -/

/-- C2 counterexample: on a job whose every rendition fails to transcode,
the plan still returns success and finalizes the job completed, with every
`output_key` still NULL — the zero-success plan does not fail and the retry
policy is not invoked. -/
theorem plan_completes_with_zero_successes :
    (processJob envNoTranscode 1000 "w1" sEx).1 = Except.ok () ∧
    (processJob envNoTranscode 1000 "w1" sEx).2.job.status = JobStatus.completed ∧
    (processJob envNoTranscode 1000 "w1" sEx).2.renditions.map
        (fun r => r.output_key) = [none, none, none] := by
  decide

/-- C2 amended: once the claim, scratch-directory creation, download and
rendition listing succeed and the final status write succeeds, the worker
finalizes the job completed unconditionally — with no regard to how many
renditions succeeded; the plan fails only when one of those bookkeeping
steps fails. -/
theorem plan_finalizes_completed_unconditionally (env : Env) (now : Nat)
    (workerID : String) (s : WorkerState)
    (h1 : env.tempDirOk = true) (h2 : env.downloadOk = true)
    (h3 : env.listOk = true) (h4 : env.finalUpdateOk = true)
    (h5 : (StartJobProcessing now workerID s.job).isSome = true) :
    (processJob env now workerID s).1 = Except.ok () ∧
    (processJob env now workerID s).2.job.status = JobStatus.completed := by
  unfold processJob
  cases h : StartJobProcessing now workerID s.job with
  | none => rw [h] at h5; simp at h5
  | some j => simp [h1, h2, h3, h4, UpdateJobStatus]

/-- Witness for the amended C2 at the zero-success oracle. -/
theorem plan_finalizes_completed_unconditionally_witness :
    (processJob envNoTranscode 1000 "w1" sEx).1 = Except.ok () ∧
    (processJob envNoTranscode 1000 "w1" sEx).2.job.status = JobStatus.completed :=
  plan_finalizes_completed_unconditionally envNoTranscode 1000 "w1" sEx
    rfl rfl rfl rfl (by decide)

/-! ## Claim C8 -/

/-- After a successful claim, the plan leaves `error_message` NULL unless it
went through `markJobFailed`, which also sets status failed. -/
theorem processJob_error_message_or_failed (env : Env) (now : Nat)
    (workerID : String) (s : WorkerState)
    (h : (StartJobProcessing now workerID s.job).isSome = true) :
    (processJob env now workerID s).2.job.error_message = none ∨
    (processJob env now workerID s).2.job.status = JobStatus.failed := by
  unfold processJob
  cases hc : StartJobProcessing now workerID s.job with
  | none => rw [hc] at h; simp at h
  | some j =>
    have hj := StartJobProcessing_some now workerID s.job j hc
    simp only [markJobFailed, UpdateJobStatus]
    repeat' split
    all_goals simp [hj]

/-- C8 counterexample: a transient download failure on a fresh job writes a
non-null `error_message` (via `markJobFailed`), and the retry handler then
resets the job to queued with the message left in place — so a non-terminal,
to-be-retried job carries an `error_message`, and the message was not
produced by a terminal transition. -/
theorem error_message_written_on_retried_job :
    (mainLoopIter envNoDownload 1000 "w1" sEx).job.status = JobStatus.queued ∧
    (mainLoopIter envNoDownload 1000 "w1" sEx).job.error_message =
      some "failed to download input" ∧
    (mainLoopIter envNoDownload 1000 "w1" sEx).job.retry_count = 1 := by
  decide

/-- C8 amended: `error_message` is written by `markJobFailed` whenever
scratch-directory creation, download or rendition listing fails — together
with status failed, even though the job will then be retried and reset to
queued with the message left in place — and by the dead-letter branch of the
retry handler with the "exceeded max retries: " message; each successful
claim clears it, and the plan itself never leaves a message on a job it did
not mark failed. -/
theorem error_message_write_sites :
    (∀ (env : Env) (now : Nat) (workerID : String) (s : WorkerState) (m : String),
      (StartJobProcessing now workerID s.job).isSome = true →
      (processJob env now workerID s).2.job.error_message = some m →
      (processJob env now workerID s).2.job.status = JobStatus.failed) ∧
    (∀ (errMsg : String) (s : WorkerState),
      (handleJobFailure errMsg s).job.error_message ≠ s.job.error_message →
      (handleJobFailure errMsg s).job.status = JobStatus.failed ∧
      (handleJobFailure errMsg s).job.error_message =
        some ("exceeded max retries: " ++ errMsg)) ∧
    (∀ (m : String) (s : WorkerState),
      (markJobFailed true m s).2.job.status = JobStatus.failed ∧
      (markJobFailed true m s).2.job.error_message = some m ∧
      (markJobFailed true m s).1 = Except.error m) ∧
    (∀ (now : Nat) (workerID : String) (j j' : Job),
      StartJobProcessing now workerID j = some j' → j'.error_message = none) := by
  refine ⟨?_, ?_, ?_, ?_⟩
  · intro env now workerID s m hsome hmsg
    rcases processJob_error_message_or_failed env now workerID s hsome with hnone | hfail
    · rw [hmsg] at hnone; exact absurd hnone (by simp)
    · exact hfail
  · intro errMsg s hchanged
    unfold handleJobFailure at hchanged ⊢
    by_cases hb : s.job.max_retries ≤ s.job.retry_count
    · rw [if_pos hb] at hchanged ⊢
      exact ⟨rfl, rfl⟩
    · rw [if_neg hb] at hchanged
      exact absurd rfl hchanged
  · intro m s
    exact ⟨rfl, rfl, rfl⟩
  · intro now workerID j j' h
    rw [StartJobProcessing_some now workerID j j' h]

/-- Witness for the amended C8: the download-failure run has its message
written together with status failed inside the plan. -/
theorem error_message_write_sites_witness :
    (processJob envNoDownload 1000 "w1" sEx).2.job.status = JobStatus.failed :=
  error_message_write_sites.1 envNoDownload 1000 "w1" sEx
    "failed to download input" (by decide) (by decide)

/-! ## Claim C6 -/

/-- C6 counterexample: when the claim comes back AlreadyClaimed (a job
freshly claimed by another worker), the loop body does not merely release
and restart — it runs the retry handler, incrementing the retry count,
resetting the processing status to queued and scheduling a re-enqueue. -/
theorem already_claimed_is_not_a_noop :
    StartJobProcessing 0 "w2" sProc.job = none ∧
    sProc.job.retry_count = 0 ∧
    (mainLoopIter envAllOk 0 "w2" sProc).job.retry_count = 1 ∧
    (mainLoopIter envAllOk 0 "w2" sProc).job.status = JobStatus.queued ∧
    (mainLoopIter envAllOk 0 "w2" sProc).scheduled = [("j1", 10)] := by
  decide

/-- Full effect of one loop iteration whose claim matched no row. -/
theorem mainLoopIter_claim_failed_cases (env : Env) (now : Nat)
    (workerID : String) (s : WorkerState)
    (h : StartJobProcessing now workerID s.job = none) :
    (mainLoopIter env now workerID s).lockHeld = false ∧
    (mainLoopIter env now workerID s).renditions = s.renditions ∧
    (s.job.retry_count < s.job.max_retries →
      (mainLoopIter env now workerID s).job = IncrementRetryCount s.job ∧
      (mainLoopIter env now workerID s).scheduled =
        s.scheduled ++ [(s.job.id, backoffDelay s.job.retry_count)] ∧
      (mainLoopIter env now workerID s).dlq = s.dlq) ∧
    (s.job.max_retries ≤ s.job.retry_count →
      (mainLoopIter env now workerID s).dlq = s.job.id :: s.dlq ∧
      (mainLoopIter env now workerID s).job =
        UpdateJobStatus JobStatus.failed
          (some ("exceeded max retries: " ++ "failed to claim job for processing"))
          s.job) := by
  rw [mainLoopIter_claim_failed env now workerID s h]
  refine ⟨rfl, ?_, ?_, ?_⟩
  · rcases handleJobFailure_branches "failed to claim job for processing"
      { s with lockHeld := true } with ⟨hge, hlt, _⟩
    by_cases hb : s.job.max_retries ≤ s.job.retry_count
    · rw [hge hb]
    · rw [hlt (by show s.job.retry_count < s.job.max_retries; omega)]
  · intro hb
    rcases handleJobFailure_branches "failed to claim job for processing"
      { s with lockHeld := true } with ⟨_, hlt, _⟩
    rw [hlt hb]
    exact ⟨rfl, rfl, rfl⟩
  · intro hb
    rcases handleJobFailure_branches "failed to claim job for processing"
      { s with lockHeld := true } with ⟨hge, _, _⟩
    rw [hge hb]
    exact ⟨rfl, rfl⟩

/-- C6 amended: on AlreadyClaimed the worker does release its lock and
return to the loop, and the plan itself changes nothing — but the failed
claim is treated like any plan failure: the retry handler runs, incrementing
`retry_count` and re-enqueueing the id after backoff when budget remains, or
dead-lettering and marking the job failed when the budget is exhausted. -/
theorem already_claimed_invokes_retry_handler (env : Env) (now : Nat)
    (workerID : String) (s : WorkerState)
    (h : StartJobProcessing now workerID s.job = none) :
    (mainLoopIter env now workerID s).lockHeld = false ∧
    (mainLoopIter env now workerID s).renditions = s.renditions ∧
    (s.job.retry_count < s.job.max_retries →
      (mainLoopIter env now workerID s).job = IncrementRetryCount s.job ∧
      (mainLoopIter env now workerID s).scheduled =
        s.scheduled ++ [(s.job.id, backoffDelay s.job.retry_count)] ∧
      (mainLoopIter env now workerID s).dlq = s.dlq) ∧
    (s.job.max_retries ≤ s.job.retry_count →
      (mainLoopIter env now workerID s).dlq = s.job.id :: s.dlq ∧
      (mainLoopIter env now workerID s).job =
        UpdateJobStatus JobStatus.failed
          (some ("exceeded max retries: " ++ "failed to claim job for processing"))
          s.job) :=
  mainLoopIter_claim_failed_cases env now workerID s h

/-- Witness for the amended C6 at the concrete racing-workers state. -/
theorem already_claimed_invokes_retry_handler_witness :
    (mainLoopIter envAllOk 0 "w2" sProc).lockHeld = false ∧
    (mainLoopIter envAllOk 0 "w2" sProc).job = IncrementRetryCount sProc.job := by
  have h := already_claimed_invokes_retry_handler envAllOk 0 "w2" sProc (by decide)
  exact ⟨h.1, (h.2.2.1 (by decide)).1⟩

/-! ## Claim C3 -/

/-- C3 counterexample: a job that already reached the terminal status
completed is reset to queued (with its retry count bumped) by a single
worker-loop iteration on its id — the claim fails, the error is fed to the
retry handler, and `IncrementRetryCount` has no terminal guard. -/
theorem terminal_status_regresses :
    sCompl.job.status = JobStatus.completed ∧
    (mainLoopIter envAllOk 1000 "w1" sCompl).job.status = JobStatus.queued ∧
    (mainLoopIter envAllOk 1000 "w1" sCompl).job.retry_count = 1 := by
  decide

/-- C3 amended: a terminal (completed or failed) job is protected only
against the conditional operations — `StartJobProcessing` and
`ResetStalledJob` match no row — while `UpdateJobStatus` and
`IncrementRetryCount` are unconditional and do change a terminal status; in
particular a worker-loop iteration on a terminal job with retry budget left
resets it to queued. -/
theorem terminal_only_guarded_against_claims (now : Nat) (workerID : String)
    (j : Job) (h : j.status = JobStatus.completed ∨ j.status = JobStatus.failed) :
    StartJobProcessing now workerID j = none ∧
    ResetStalledJob j = none ∧
    (∀ st em, (UpdateJobStatus st em j).status = st) ∧
    (IncrementRetryCount j).status = JobStatus.queued ∧
    (∀ (env : Env) (s : WorkerState), s.job = j →
      j.retry_count < j.max_retries →
      (mainLoopIter env now workerID s).job.status = JobStatus.queued) := by
  have hclaim : StartJobProcessing now workerID j = none := by
    unfold StartJobProcessing claimEligible
    rcases h with h | h <;> simp [h]
  refine ⟨hclaim, ?_, fun st em => rfl, rfl, ?_⟩
  · unfold ResetStalledJob
    rcases h with h | h <;> simp [h]
  · intro env s hs hlt
    have hclaim' : StartJobProcessing now workerID s.job = none := by
      rw [hs]; exact hclaim
    have hiter := mainLoopIter_claim_failed_cases env now workerID s hclaim'
    rw [(hiter.2.2.1 (by rw [hs]; exact hlt)).1, hs]
    rfl

/-- Witness for the amended C3 at the concrete completed job. -/
theorem terminal_only_guarded_against_claims_witness :
    StartJobProcessing 1000 "w1" sCompl.job = none ∧
    (mainLoopIter envAllOk 1000 "w1" sCompl).job.status = JobStatus.queued := by
  have h := terminal_only_guarded_against_claims 1000 "w1" sCompl.job
    (Or.inl (by decide))
  exact ⟨h.1, h.2.2.2.2 envAllOk sCompl rfl (by decide)⟩

/-! ## Claim C5 -/

/-- The retry handler preserves the retry bound: it increments only under
the guard. -/
theorem handleJobFailure_retry_le (errMsg : String) (s : WorkerState)
    (h : s.job.retry_count ≤ s.job.max_retries) :
    (handleJobFailure errMsg s).job.retry_count ≤
      (handleJobFailure errMsg s).job.max_retries := by
  unfold handleJobFailure
  by_cases hb : s.job.max_retries ≤ s.job.retry_count
  · rw [if_pos hb]
    simpa [UpdateJobStatus] using h
  · rw [if_neg hb]
    show s.job.retry_count + 1 ≤ s.job.max_retries
    omega

/-- The retry handler touches the dead-letter list only in the exhausted
branch. -/
theorem handleJobFailure_dlq_change (errMsg : String) (s : WorkerState)
    (h : (handleJobFailure errMsg s).dlq ≠ s.dlq) :
    s.job.max_retries ≤ s.job.retry_count := by
  by_contra hb
  apply h
  unfold handleJobFailure
  rw [if_neg hb]

/-- The retry handler changes the retry count only under the guard. -/
theorem handleJobFailure_retry_change (errMsg : String) (s : WorkerState)
    (h : (handleJobFailure errMsg s).job.retry_count ≠ s.job.retry_count) :
    s.job.retry_count < s.job.max_retries := by
  by_cases hb : s.job.max_retries ≤ s.job.retry_count
  · exfalso
    apply h
    unfold handleJobFailure
    rw [if_pos hb]
    rfl
  · omega

/-- One loop iteration preserves the retry bound. -/
theorem mainLoopIter_retry_le (env : Env) (now : Nat) (workerID : String)
    (s : WorkerState) (h : s.job.retry_count ≤ s.job.max_retries) :
    (mainLoopIter env now workerID s).job.retry_count ≤
      (mainLoopIter env now workerID s).job.max_retries := by
  have hp := processJob_preserves env now workerID { s with lockHeld := true }
  rcases mainLoopIter_cases env now workerID s with heq | ⟨e, _, heq⟩
  · rw [heq]
    show (processJob env now workerID { s with lockHeld := true }).2.job.retry_count ≤
      (processJob env now workerID { s with lockHeld := true }).2.job.max_retries
    rw [hp.2.2.1, hp.2.2.2.1]
    exact h
  · rw [heq]
    show (handleJobFailure e (processJob env now workerID { s with lockHeld := true }).2).job.retry_count ≤
      (handleJobFailure e (processJob env now workerID { s with lockHeld := true }).2).job.max_retries
    apply handleJobFailure_retry_le
    rw [hp.2.2.1, hp.2.2.2.1]
    exact h

/-- The retry bound holds in every reachable state. -/
theorem reachable_retry_le (s : WorkerState) (hs : Reachable s) :
    s.job.retry_count ≤ s.job.max_retries := by
  induction hs with
  | init id inputKey resolutions => simp [initialState, initialJob]
  | loop s env now workerID _ ih => exact mainLoopIter_retry_le env now workerID s ih

/-- C5: in every state reachable through the worker runtime the retry count
never exceeds `max_retries`; the handler increments only while strictly
below the cap; and any loop iteration that pushes to the dead-letter queue
does so with the retry count exactly at the cap. -/
theorem retry_bound_invariant (s : WorkerState) (hs : Reachable s) :
    s.job.retry_count ≤ s.job.max_retries ∧
    (∀ (env : Env) (now : Nat) (workerID : String),
      (mainLoopIter env now workerID s).dlq ≠ s.dlq →
      s.job.retry_count = s.job.max_retries) ∧
    (∀ errMsg, (handleJobFailure errMsg s).job.retry_count ≠ s.job.retry_count →
      s.job.retry_count < s.job.max_retries) := by
  have hle := reachable_retry_le s hs
  refine ⟨hle, ?_, fun errMsg h => handleJobFailure_retry_change errMsg s h⟩
  intro env now workerID hdlq
  have hp := processJob_preserves env now workerID { s with lockHeld := true }
  rcases mainLoopIter_cases env now workerID s with heq | ⟨e, _, heq⟩
  · exfalso
    apply hdlq
    rw [heq]
    show (processJob env now workerID { s with lockHeld := true }).2.dlq = s.dlq
    exact hp.2.2.2.2.1
  · have hchange : (handleJobFailure e
        (processJob env now workerID { s with lockHeld := true }).2).dlq ≠
        (processJob env now workerID { s with lockHeld := true }).2.dlq := by
      intro hc
      apply hdlq
      rw [heq]
      show (handleJobFailure e (processJob env now workerID { s with lockHeld := true }).2).dlq = s.dlq
      rw [hc]
      exact hp.2.2.2.2.1
    have hge := handleJobFailure_dlq_change e _ hchange
    rw [hp.2.2.1, hp.2.2.2.1] at hge
    exact le_antisymm hle hge

/-- Witness for C5 at the initial submitted state. -/
theorem retry_bound_invariant_witness :
    sEx.job.retry_count ≤ sEx.job.max_retries :=
  (retry_bound_invariant sEx
    (Reachable.init "j1" "uploads/a/v.mp4" ["480p", "720p", "1080p"])).1

/-! ## Claim C7 -/

/-- The duplicate check the UNIQUE constraint performs agrees with
membership in the resolutions already present for the job. -/
theorem any_dup_iff (jobID r : String) (rens : List Rendition) :
    (rens.any (fun x => x.job_id == jobID && x.resolution == r)) = true ↔
      r ∈ resolutionsOf jobID rens := by
  unfold resolutionsOf
  simp only [List.any_eq_true, List.mem_map, List.mem_filter,
    Bool.and_eq_true, beq_iff_eq]
  constructor
  · rintro ⟨x, hx, h1, h2⟩
    exact ⟨x, ⟨hx, h1⟩, h2⟩
  · rintro ⟨x, ⟨hx, h1⟩, h2⟩
    exact ⟨x, hx, h1, h2⟩

/-- Appending a fresh rendition row of the same job appends its resolution. -/
theorem resolutionsOf_append_own (jobID r : String) (rens : List Rendition) :
    resolutionsOf jobID (rens ++ [mkRendition jobID r]) =
      resolutionsOf jobID rens ++ [r] := by
  unfold resolutionsOf mkRendition
  simp [List.filter_append]

/-- De-duplication only depends on the membership of the seen list. -/
theorem dedupKeepFirst_congr (rs : List String) :
    ∀ s1 s2, (∀ x, x ∈ s1 ↔ x ∈ s2) →
      dedupKeepFirst rs s1 = dedupKeepFirst rs s2 := by
  induction rs with
  | nil => intro s1 s2 _; rfl
  | cons r rest ih =>
    intro s1 s2 h
    unfold dedupKeepFirst
    by_cases hr : r ∈ s1
    · rw [if_pos hr, if_pos ((h r).mp hr)]
      exact ih s1 s2 h
    · rw [if_neg hr, if_neg (fun hc => hr ((h r).mpr hc))]
      rw [ih (r :: s1) (r :: s2) (fun x => by simp [h x])]

/-- The insert loop of the handler appends exactly one row per first
occurrence of a requested resolution not already present, in request order. -/
theorem insertRenditions_eq (jobID : String) :
    ∀ (rs : List String) (rens : List Rendition),
      insertRenditions jobID rs rens =
        rens ++ (dedupKeepFirst rs (resolutionsOf jobID rens)).map (mkRendition jobID) := by
  intro rs
  induction rs with
  | nil => intro rens; simp [insertRenditions, dedupKeepFirst]
  | cons r rest ih =>
    intro rens
    by_cases hdup : (rens.any (fun x => x.job_id == jobID && x.resolution == r)) = true
    · have hcr : CreateRendition jobID r rens = none := by
        unfold CreateRendition
        rw [if_pos hdup]
      have hmem : r ∈ resolutionsOf jobID rens := (any_dup_iff jobID r rens).mp hdup
      unfold insertRenditions
      rw [hcr]
      unfold dedupKeepFirst
      rw [if_pos hmem]
      exact ih rens
    · have hcr : CreateRendition jobID r rens = some (rens ++ [mkRendition jobID r]) := by
        unfold CreateRendition
        rw [if_neg hdup]
      have hmem : r ∉ resolutionsOf jobID rens :=
        fun hc => hdup ((any_dup_iff jobID r rens).mpr hc)
      unfold insertRenditions
      rw [hcr]
      unfold dedupKeepFirst
      rw [if_neg hmem]
      show insertRenditions jobID rest (rens ++ [mkRendition jobID r]) =
        rens ++ List.map (mkRendition jobID)
          (r :: dedupKeepFirst rest (r :: resolutionsOf jobID rens))
      rw [ih (rens ++ [mkRendition jobID r]), resolutionsOf_append_own]
      rw [dedupKeepFirst_congr rest (resolutionsOf jobID rens ++ [r])
        (r :: resolutionsOf jobID rens) (fun x => by simp [or_comm])]
      simp

/-- C7 counterexample: a request with duplicate resolutions is not rejected
with InvalidInput and does create rows: the handler answers 201, the job row
is committed, and the duplicate insert is silently dropped, leaving a single
rendition. -/
theorem duplicate_resolutions_not_rejected :
    (CreateJobHandler apiEnvOk "uploads/a/v.mp4" ["720p", "720p"] "j9" api0).1 = 201 ∧
    (CreateJobHandler apiEnvOk "uploads/a/v.mp4" ["720p", "720p"] "j9" api0).2.jobs =
      [initialJob "j9" "uploads/a/v.mp4"] ∧
    (CreateJobHandler apiEnvOk "uploads/a/v.mp4" ["720p", "720p"] "j9" api0).2.renditions =
      [mkRendition "j9" "720p"] := by
  decide

/-- C7 amended: with a non-empty input key and a healthy job insert, job
creation always answers 201: the job row is committed with status queued,
an empty resolutions list falls back to 480p/720p/1080p, and the renditions
inserted are the first occurrences of the requested resolutions — duplicate
entries are silently dropped by the UNIQUE constraint while the job row and
the other renditions remain committed, so creation is neither atomic in the
claimed sense nor guarded by an InvalidInput check. -/
theorem createJob_commits_job_and_drops_duplicates (env : ApiEnv)
    (inputKey : String) (resolutions : List String) (newID : String)
    (s : ApiState) (hin : inputKey ≠ "") (hdb : env.createJobOk = true)
    (hfresh : resolutionsOf newID s.renditions = []) :
    (CreateJobHandler env inputKey resolutions newID s).1 = 201 ∧
    (CreateJobHandler env inputKey resolutions newID s).2.jobs =
      s.jobs ++ [initialJob newID inputKey] ∧
    (initialJob newID inputKey).status = JobStatus.queued ∧
    (CreateJobHandler env inputKey resolutions newID s).2.renditions =
      s.renditions ++
        (dedupKeepFirst
          (if resolutions.isEmpty then defaultResolutions else resolutions)
          []).map (mkRendition newID) := by
  have hr := insertRenditions_eq newID
    (if resolutions.isEmpty then defaultResolutions else resolutions) s.renditions
  rw [hfresh] at hr
  by_cases hp : env.pushOk = true
  all_goals
    unfold CreateJobHandler
    simp only [if_neg hin, hdb, hp, not_true, not_false_iff, Bool.not_eq_true,
      if_false, if_true, ite_true, ite_false]
    simp only [List.isEmpty_iff] at hr
    simp [hr, initialJob]

/-- Witness for the amended C7 at the duplicate request. -/
theorem createJob_commits_job_and_drops_duplicates_witness :
    (CreateJobHandler apiEnvOk "uploads/a/v.mp4" ["720p", "720p"] "j9" api0).1 = 201 ∧
    (CreateJobHandler apiEnvOk "uploads/a/v.mp4" ["720p", "720p"] "j9" api0).2.jobs =
      api0.jobs ++ [initialJob "j9" "uploads/a/v.mp4"] := by
  have h := createJob_commits_job_and_drops_duplicates apiEnvOk "uploads/a/v.mp4"
    ["720p", "720p"] "j9" api0 (by decide) rfl (by decide)
  exact ⟨h.1, h.2.1⟩

end Transcode
